import Mathlib

/-!
Verification of the CloudyHost process supervisor (src/server/botManager.ts)
against its specification. The TypeScript code is shallowly embedded as
functional state transformers over an explicit `ManagerState`; timers are
modelled as an explicit pending-timer set, and the jitter drawn by
`Math.random()` and the current clock are passed as parameters.
-/

namespace CloudyHost

/-- Persisted bot status (shared/schema BotStatus). -/
inductive BotStatus
  | stopped
  | starting
  | running
  | error
  | unresponsive
deriving DecidableEq, Repr

/-- Log severity levels (botManager.ts LogEntry.level). -/
inductive LogLevel
  | info
  | warn
  | error
  | debug
deriving DecidableEq, Repr

/-- Persisted bot record: the fields of the Metadata Store record that the
supervisor reads or writes (name, mainFile, status). -/
structure BotRec where
  name : String
  mainFile : String
  status : BotStatus
deriving DecidableEq, Repr

/-- A live child-process handle. `killed` mirrors Node ChildProcess.killed:
set to true once kill() successfully delivers a signal; it does NOT mean
the process has terminated. -/
structure ProcHandle where
  pid : Nat
  killed : Bool
deriving DecidableEq, Repr

/-- botManager.ts HealthCheckInfo (timestamps as Nat milliseconds, timer
handles as Nat timer ids). -/
structure HealthCheckInfo where
  lastCheck : Nat
  lastResponse : Option Nat
  consecutiveFailures : Nat
  isWaitingForResponse : Bool
  healthCheckId : Option String
  timeoutHandle : Option Nat
deriving DecidableEq, Repr

/-- botManager.ts RetryInfo. -/
structure RetryInfo where
  attempts : Nat
  lastAttempt : Nat
  nextRetryAt : Option Nat
  retryTimeoutHandle : Option Nat
deriving DecidableEq, Repr

/-- A pending timer: its id and the delay it was armed with. -/
structure Timer where
  tid : Nat
  delay : Nat
deriving DecidableEq, Repr

/-- The whole observable state: the three in-memory maps of BotManager,
the persisted bot records of the Metadata Store, the Log Sink contents,
and the set of armed (not yet fired, not cancelled) timers. `nextTid` and
`nextPid` supply fresh timer ids and process ids. -/
structure ManagerState where
  bots : List (String × BotRec)
  runningBots : List (String × ProcHandle)
  healthCheckData : List (String × HealthCheckInfo)
  retryData : List (String × RetryInfo)
  logs : List (String × LogLevel × String)
  pendingTimers : List Timer
  nextTid : Nat
  nextPid : Nat
deriving Repr

/-- Association-list lookup (JS Map.get). -/
def alookup {α : Type} (l : List (String × α)) (k : String) : Option α :=
  (l.find? (fun p => p.1 == k)).map (fun p => p.2)

/-- Association-list removal (JS Map.delete). -/
def aerase {α : Type} (l : List (String × α)) (k : String) : List (String × α) :=
  l.filter (fun p => p.1 != k)

/-- Association-list insert/overwrite (JS Map.set). -/
def aset {α : Type} (l : List (String × α)) (k : String) (v : α) : List (String × α) :=
  (k, v) :: aerase l k

/-- Number of entries stored under a key. -/
def countKey {α : Type} (l : List (String × α)) (k : String) : Nat :=
  (l.filter (fun p => p.1 == k)).length

def MAX_CONSECUTIVE_FAILURES : Nat := 3
def MAX_RETRY_ATTEMPTS : Nat := 5
def BASE_RETRY_DELAY : Nat := 2000
def JITTER_MAX : Nat := 1000
def FORCE_KILL_TIMEOUT : Nat := 5000

/-- storage.updateBotStatus (fileStorage): updates the status field only
when the record exists; on a missing id it is a no-op returning undefined. -/
def updateBotStatus (s : ManagerState) (id : String) (st : BotStatus) : ManagerState :=
  match alookup s.bots id with
  | none => s
  | some b => { s with bots := aset s.bots id { b with status := st } }

/-- addLog: appends a structured entry to the Log Sink for the given bot. -/
def addLog (s : ManagerState) (id : String) (lvl : LogLevel) (msg : String) : ManagerState :=
  { s with logs := s.logs ++ [(id, lvl, msg)] }

/-- The persisted status of a bot, when the record exists. -/
def getStatus (s : ManagerState) (id : String) : Option BotStatus :=
  (alookup s.bots id).map (fun b => b.status)

/-- clearTimeout: removes the timer with the given id from the pending set
(no-op on an absent handle). -/
def clearTimeout (s : ManagerState) (h : Option Nat) : ManagerState :=
  match h with
  | none => s
  | some t => { s with pendingTimers := s.pendingTimers.filter (fun tm => tm.tid != t) }

/-- setTimeout: arms a fresh timer with the given delay; the new timer id
is the pre-state `nextTid`. -/
def armTimer (s : ManagerState) (d : Nat) : ManagerState :=
  { s with pendingTimers := s.pendingTimers ++ [⟨s.nextTid, d⟩], nextTid := s.nextTid + 1 }

/-- handleHealthCheckFailure (botManager.ts lines 197 to 220): clear the
probe timeout, mark the probe settled, count one more consecutive failure,
and on reaching the threshold persist the `unresponsive` status. -/
def handleHealthCheckFailure (s : ManagerState) (botId reason : String) : ManagerState :=
  match alookup s.healthCheckData botId with
  | none => s
  | some h0 =>
    let s1 := clearTimeout s h0.timeoutHandle
    let h1 := { h0 with timeoutHandle := none, isWaitingForResponse := false,
                        consecutiveFailures := h0.consecutiveFailures + 1 }
    let s2 := { s1 with healthCheckData := aset s1.healthCheckData botId h1 }
    let s3 := addLog s2 botId .warn ("Health check failed: " ++ reason)
    if h1.consecutiveFailures ≥ MAX_CONSECUTIVE_FAILURES then
      addLog (updateBotStatus s3 botId .unresponsive) botId .error
        "Bot marked as unresponsive after consecutive failures"
    else s3

/-- handleHealthCheckSuccess (botManager.ts lines 225 to 249): a response is
accepted only when its token equals the outstanding one; on acceptance the
timeout is cleared, the failure counter reset, and an `unresponsive` status
is restored to `running`. A non-matching token returns without any effect. -/
def handleHealthCheckSuccess (now : Nat) (s : ManagerState) (botId hcId : String) : ManagerState :=
  match alookup s.healthCheckData botId with
  | none => s
  | some h0 =>
    if h0.healthCheckId = some hcId then
      let s1 := clearTimeout s h0.timeoutHandle
      let h1 := { h0 with timeoutHandle := none, isWaitingForResponse := false,
                          lastResponse := some now, consecutiveFailures := 0 }
      let s2 := { s1 with healthCheckData := aset s1.healthCheckData botId h1 }
      let s3 :=
        if getStatus s2 botId = some .unresponsive then
          addLog (updateBotStatus s2 botId .running) botId .info "Bot is now responsive again"
        else s2
      addLog s3 botId .debug ("Health check passed: " ++ hcId)
    else s

/-- The RetryInfo consulted by scheduleSmartRetry (botManager.ts line 605):
the stored record, or a fresh one with attempts 0. -/
def getRetryInfo (now : Nat) (s : ManagerState) (botId : String) : RetryInfo :=
  (alookup s.retryData botId).getD
    { attempts := 0, lastAttempt := now, nextRetryAt := none, retryTimeoutHandle := none }

/-- scheduleSmartRetry (botManager.ts lines 603 to 652). `jitter` is the
value of Math.random() * 1000, in [0, JITTER_MAX). At or above the attempt
cap the record is discarded and no timer armed; otherwise the delay is
BASE_RETRY_DELAY * 2 ^ attempts + jitter, attempts is incremented, any
previously stored retry timer is cleared and a new one armed. -/
def scheduleSmartRetry (now jitter : Nat) (s : ManagerState) (botId : String) : ManagerState :=
  let retryInfo := getRetryInfo now s botId
  if retryInfo.attempts ≥ MAX_RETRY_ATTEMPTS then
    let s1 := addLog s botId .error "Max retry attempts reached. Bot will not restart automatically."
    { s1 with retryData := aerase s1.retryData botId }
  else
    let retryDelay := BASE_RETRY_DELAY * 2 ^ retryInfo.attempts + jitter
    let r1 := { retryInfo with attempts := retryInfo.attempts + 1,
                               lastAttempt := now,
                               nextRetryAt := some (now + retryDelay) }
    let s1 := clearTimeout s retryInfo.retryTimeoutHandle
    let s2 := addLog s1 botId .info "Scheduling restart attempt"
    let s3 := armTimer s2 retryDelay
    let r2 := { r1 with retryTimeoutHandle := some s2.nextTid }
    { s3 with retryData := aset s3.retryData botId r2 }

/-- The exit listener installed by startBot (botManager.ts lines 422 to 439):
drop the live handle and HealthRecord, persist `stopped` on exit code 0 and
`error` otherwise, log, and engage the Retry Scheduler exactly when the exit
was not a deliberate stop (code not 0 and signal not SIGTERM). The returned
Bool records whether scheduleSmartRetry was invoked. -/
def onChildExit (now jitter : Nat) (s : ManagerState) (botId : String)
    (code : Option Int) (signal : Option String) : ManagerState × Bool :=
  let s1 := { s with runningBots := aerase s.runningBots botId,
                     healthCheckData := aerase s.healthCheckData botId }
  let s2 := updateBotStatus s1 botId (if code = some 0 then .stopped else .error)
  let s3 := if signal.isSome then addLog s2 botId .warn "Bot process terminated by signal"
            else addLog s2 botId .info "Bot process exited with code"
  if code ≠ some 0 ∧ signal ≠ some "SIGTERM"
  then (scheduleSmartRetry now jitter s3 botId, true)
  else (s3, false)

/-- How the child process behaves during a stopBot call, resolving the
nondeterminism of the OS and event loop that the code reacts to. -/
inductive StopScenario
  /-- childProcess.kill with SIGTERM throws synchronously. -/
  | sigtermThrows
  /-- SIGTERM is delivered, but the handle emits an `error` event before any
  exit or before the grace deadline. -/
  | errorEvent
  /-- SIGTERM is delivered and the process exits before the 5s deadline with
  the given code and signal. -/
  | exitsWithinGrace (code : Option Int) (signal : Option String)
  /-- SIGTERM is delivered but the process has not exited when the 5s force
  timer fires. -/
  | noExitWithinGrace
deriving DecidableEq, Repr

/-- What a stopBot call did: the resolved boolean, whether SIGTERM was
delivered, how many SIGKILLs were sent, and the fate of the force timer. -/
structure StopOutcome where
  result : Bool
  sigtermSent : Bool
  sigkillCount : Nat
  forceTimerArmed : Bool
  forceTimerCancelled : Bool
deriving DecidableEq, Repr

/-- stopBot (botManager.ts lines 472 to 557). On a non-live id: a warning
log and false. On a live id: log, remove the handle from the live table,
persist `stopped`, install exit and error listeners, send SIGTERM, arm the
5s force timer, and resolve per the scenario. The effects of the exit
listener installed by startBot are modelled separately by `onChildExit`
and composed where a scenario includes the child actually exiting.
In the `noExitWithinGrace` branch the guard on childProcess.killed is taken
with killed = true: reaching the force timer unresolved means the SIGTERM
kill() call succeeded, and Node sets the killed flag on any successful
kill(), whether or not the process terminated. -/
def stopBot (s : ManagerState) (botId : String) (sc : StopScenario) :
    ManagerState × StopOutcome :=
  match alookup s.runningBots botId with
  | none =>
    (addLog s botId .warn "Bot is not running",
     { result := false, sigtermSent := false, sigkillCount := 0,
       forceTimerArmed := false, forceTimerCancelled := false })
  | some _h =>
    let s1 := addLog s botId .info "Stopping bot..."
    let s2 := { s1 with runningBots := aerase s1.runningBots botId }
    let s3 := updateBotStatus s2 botId .stopped
    match sc with
    | .sigtermThrows =>
      -- kill throws before the force timer is armed: resolve false
      (addLog s3 botId .error "Failed to send SIGTERM",
       { result := false, sigtermSent := false, sigkillCount := 0,
         forceTimerArmed := false, forceTimerCancelled := false })
    | .errorEvent =>
      -- listeners installed, SIGTERM delivered, force timer armed; the
      -- error event resolves false
      let s4 := armTimer s3 FORCE_KILL_TIMEOUT
      (addLog s4 botId .error "Error stopping bot",
       { result := false, sigtermSent := true, sigkillCount := 0,
         forceTimerArmed := true, forceTimerCancelled := false })
    | .exitsWithinGrace _code signal =>
      -- exit before the deadline: onExit logs and resolves true, and the
      -- second once-exit listener clears the force timer
      let s4 := armTimer s3 FORCE_KILL_TIMEOUT
      let s5 := if signal.isSome then addLog s4 botId .info "Bot stopped by signal"
                else addLog s4 botId .info "Bot stopped with code"
      let s6 := clearTimeout s5 (some s3.nextTid)
      (s6,
       { result := true, sigtermSent := true, sigkillCount := 0,
         forceTimerArmed := true, forceTimerCancelled := true })
    | .noExitWithinGrace =>
      -- the force timer fires (so it is consumed, not cancelled); since
      -- childProcess.killed is already true after the successful SIGTERM,
      -- the "if not killed" guard skips kill(SIGKILL) and its log; the
      -- listeners are removed and the promise resolves true
      let s4 := armTimer s3 FORCE_KILL_TIMEOUT
      let killedFlag := true
      let s5 := if killedFlag = false then
                  addLog s4 botId .warn "Bot force-killed after timeout"
                else s4
      let s6 := clearTimeout s5 (some s3.nextTid)
      (s6,
       { result := true, sigtermSent := true,
         sigkillCount := if killedFlag = false then 1 else 0,
         forceTimerArmed := true, forceTimerCancelled := false })

/-- deleteBot (botManager.ts lines 568 to 598): stop first when live, then
remove the bot files (logged), delete the persisted record, and purge the
Log Sink entries of this bot. -/
def deleteBot (s : ManagerState) (botId : String) (sc : StopScenario) :
    ManagerState × Bool :=
  let s1 := if (alookup s.runningBots botId).isSome then (stopBot s botId sc).1 else s
  let s2 := match alookup s1.bots botId with
            | some _ => addLog s1 botId .info "Removed bot files"
            | none => s1
  let s3 := { s2 with bots := aerase s2.bots botId }
  let s4 := { s3 with logs := s3.logs.filter (fun e => e.1 != botId) }
  (s4, true)

/-- Node path.extname restricted to plain file names: the extension from
the final dot, empty when there is no dot or when the only dot leads the
name. -/
def extname (fname : String) : String :=
  match fname.splitOn "." with
  | [] => ""
  | [_] => ""
  | ["", _] => ""
  | ps => "." ++ ps.getLastD ""

/-- Environment facts startBot consults before spawning: whether the main
file exists in the bot directory and whether a Python venv is present. -/
structure StartScenario where
  mainFileExists : Bool
  venvExists : Bool
deriving DecidableEq, Repr

/-- The spawn step of startBot: registers a fresh live handle (Node spawns
with killed = false). -/
def spawnChild (s : ManagerState) (botId : String) : ManagerState × Bool :=
  ({ s with runningBots := aset s.runningBots botId { pid := s.nextPid, killed := false },
            nextPid := s.nextPid + 1 }, true)

/-- startBot (botManager.ts lines 325 to 470) up to and including spawn.
A missing record throws, is caught, and persists `error`; an id already in
the live table logs a warning and returns false before any state change;
otherwise status moves to `starting`, the main file and extension are
checked, and the child is spawned. The post-spawn listeners are modelled
separately (`onChildExit`); the 1s running confirmation is untouched state
here. -/
def startBot (s : ManagerState) (botId : String) (sc : StartScenario) :
    ManagerState × Bool :=
  match alookup s.bots botId with
  | none =>
    (addLog (updateBotStatus s botId .error) botId .error "Failed to start bot: not found", false)
  | some bot =>
    if (alookup s.runningBots botId).isSome then
      (addLog s botId .warn "Bot already running", false)
    else
      let s1 := updateBotStatus s botId .starting
      let s2 := addLog s1 botId .info ("Starting bot: " ++ bot.name)
      if sc.mainFileExists = false then
        (addLog (updateBotStatus s2 botId .error) botId .error
          ("Main file not found: " ++ bot.mainFile), false)
      else
        let ext := (extname bot.mainFile).toLower
        if ext = ".js" ∨ ext = ".ts" then
          spawnChild s2 botId
        else if ext = ".py" then
          let s3 := if sc.venvExists then
                      addLog s2 botId .info "Using Python virtual environment"
                    else
                      addLog s2 botId .warn "Virtual environment not found, using system Python"
          spawnChild s3 botId
        else
          (addLog (updateBotStatus s2 botId .error) botId .error
            ("Unsupported file type: " ++ ext), false)

/-! Helper lemmas: which state components each primitive leaves alone. -/

@[simp] theorem alookup_aset_self {α : Type} (l : List (String × α)) (k : String) (v : α) :
    alookup (aset l k v) k = some v := by
  simp [alookup, aset, List.find?_cons]

@[simp] theorem addLog_bots (s : ManagerState) (id : String) (lvl : LogLevel) (m : String) :
    (addLog s id lvl m).bots = s.bots := rfl

@[simp] theorem addLog_runningBots (s : ManagerState) (id : String) (lvl : LogLevel) (m : String) :
    (addLog s id lvl m).runningBots = s.runningBots := rfl

@[simp] theorem addLog_healthCheckData (s : ManagerState) (id : String) (lvl : LogLevel) (m : String) :
    (addLog s id lvl m).healthCheckData = s.healthCheckData := rfl

@[simp] theorem addLog_retryData (s : ManagerState) (id : String) (lvl : LogLevel) (m : String) :
    (addLog s id lvl m).retryData = s.retryData := rfl

@[simp] theorem addLog_pendingTimers (s : ManagerState) (id : String) (lvl : LogLevel) (m : String) :
    (addLog s id lvl m).pendingTimers = s.pendingTimers := rfl

@[simp] theorem addLog_nextTid (s : ManagerState) (id : String) (lvl : LogLevel) (m : String) :
    (addLog s id lvl m).nextTid = s.nextTid := rfl

@[simp] theorem clearTimeout_bots (s : ManagerState) (h : Option Nat) :
    (clearTimeout s h).bots = s.bots := by cases h <;> rfl

@[simp] theorem clearTimeout_runningBots (s : ManagerState) (h : Option Nat) :
    (clearTimeout s h).runningBots = s.runningBots := by cases h <;> rfl

@[simp] theorem clearTimeout_healthCheckData (s : ManagerState) (h : Option Nat) :
    (clearTimeout s h).healthCheckData = s.healthCheckData := by cases h <;> rfl

@[simp] theorem clearTimeout_retryData (s : ManagerState) (h : Option Nat) :
    (clearTimeout s h).retryData = s.retryData := by cases h <;> rfl

@[simp] theorem clearTimeout_logs (s : ManagerState) (h : Option Nat) :
    (clearTimeout s h).logs = s.logs := by cases h <;> rfl

@[simp] theorem clearTimeout_nextTid (s : ManagerState) (h : Option Nat) :
    (clearTimeout s h).nextTid = s.nextTid := by cases h <;> rfl

@[simp] theorem armTimer_bots (s : ManagerState) (d : Nat) :
    (armTimer s d).bots = s.bots := rfl

@[simp] theorem armTimer_runningBots (s : ManagerState) (d : Nat) :
    (armTimer s d).runningBots = s.runningBots := rfl

@[simp] theorem armTimer_healthCheckData (s : ManagerState) (d : Nat) :
    (armTimer s d).healthCheckData = s.healthCheckData := rfl

@[simp] theorem armTimer_retryData (s : ManagerState) (d : Nat) :
    (armTimer s d).retryData = s.retryData := rfl

@[simp] theorem armTimer_logs (s : ManagerState) (d : Nat) :
    (armTimer s d).logs = s.logs := rfl

@[simp] theorem updateBotStatus_runningBots (s : ManagerState) (id : String) (st : BotStatus) :
    (updateBotStatus s id st).runningBots = s.runningBots := by
  unfold updateBotStatus; split <;> rfl

@[simp] theorem updateBotStatus_healthCheckData (s : ManagerState) (id : String) (st : BotStatus) :
    (updateBotStatus s id st).healthCheckData = s.healthCheckData := by
  unfold updateBotStatus; split <;> rfl

@[simp] theorem updateBotStatus_retryData (s : ManagerState) (id : String) (st : BotStatus) :
    (updateBotStatus s id st).retryData = s.retryData := by
  unfold updateBotStatus; split <;> rfl

@[simp] theorem updateBotStatus_logs (s : ManagerState) (id : String) (st : BotStatus) :
    (updateBotStatus s id st).logs = s.logs := by
  unfold updateBotStatus; split <;> rfl

@[simp] theorem updateBotStatus_pendingTimers (s : ManagerState) (id : String) (st : BotStatus) :
    (updateBotStatus s id st).pendingTimers = s.pendingTimers := by
  unfold updateBotStatus; split <;> rfl

@[simp] theorem updateBotStatus_nextTid (s : ManagerState) (id : String) (st : BotStatus) :
    (updateBotStatus s id st).nextTid = s.nextTid := by
  unfold updateBotStatus; split <;> rfl

theorem getStatus_updateBotStatus_self (s : ManagerState) (id : String) (st : BotStatus)
    (b : BotRec) (hb : alookup s.bots id = some b) :
    getStatus (updateBotStatus s id st) id = some st := by
  unfold getStatus updateBotStatus
  simp [hb]

theorem scheduleSmartRetry_bots (now j : Nat) (s : ManagerState) (id : String) :
    (scheduleSmartRetry now j s id).bots = s.bots := by
  unfold scheduleSmartRetry
  dsimp only
  split <;> simp

theorem scheduleSmartRetry_runningBots (now j : Nat) (s : ManagerState) (id : String) :
    (scheduleSmartRetry now j s id).runningBots = s.runningBots := by
  unfold scheduleSmartRetry
  dsimp only
  split <;> simp

@[simp] theorem getStatus_addLog (s : ManagerState) (id : String) (lvl : LogLevel)
    (m : String) (id2 : String) :
    getStatus (addLog s id lvl m) id2 = getStatus s id2 := rfl

theorem getStatus_scheduleSmartRetry (now j : Nat) (s : ManagerState) (id id2 : String) :
    getStatus (scheduleSmartRetry now j s id) id2 = getStatus s id2 := by
  unfold getStatus
  rw [scheduleSmartRetry_bots]

/-- The status persisted by the exit listener, as a single description:
`stopped` exactly on exit code 0, `error` on every other code (including a
null code from a signal-caused termination). -/
theorem onChildExit_getStatus (now j : Nat) (s : ManagerState) (id : String)
    (code : Option Int) (signal : Option String) (b : BotRec)
    (hb : alookup s.bots id = some b) :
    getStatus (onChildExit now j s id code signal).1 id
      = some (if code = some 0 then BotStatus.stopped else BotStatus.error) := by
  unfold onChildExit
  dsimp only
  split
  · rw [getStatus_scheduleSmartRetry]
    split <;>
      · rw [getStatus_addLog]
        exact getStatus_updateBotStatus_self _ id _ b hb
  · split <;>
      · rw [getStatus_addLog]
        exact getStatus_updateBotStatus_self _ id _ b hb

/-! Sample concrete states for the witness theorems. -/

/-- Sample persisted bot record. -/
def sampleBot : BotRec := { name := "demo", mainFile := "bot.js", status := .running }

/-- A state with one live, health-tracked bot "b" that has already missed
two consecutive health checks and has probe token hc_1 outstanding. -/
def sampleLive : ManagerState :=
  { bots := [("b", sampleBot)],
    runningBots := [("b", { pid := 100, killed := false })],
    healthCheckData := [("b", { lastCheck := 0, lastResponse := none, consecutiveFailures := 2,
                                isWaitingForResponse := true, healthCheckId := some "hc_1",
                                timeoutHandle := some 7 })],
    retryData := [],
    logs := [],
    pendingTimers := [{ tid := 7, delay := 30000 }],
    nextTid := 8, nextPid := 101 }

/-- A state where bot "b" has crashed and a retry timer (id 3) is pending. -/
def sampleRetrying : ManagerState :=
  { bots := [("b", { name := "demo", mainFile := "bot.js", status := .error })],
    runningBots := [],
    healthCheckData := [],
    retryData := [("b", { attempts := 1, lastAttempt := 0, nextRetryAt := some 2500,
                          retryTimeoutHandle := some 3 })],
    logs := [],
    pendingTimers := [{ tid := 3, delay := 2500 }],
    nextTid := 4, nextPid := 101 }

/-- A state where bot "b" exists but is not live. -/
def sampleNotLive : ManagerState :=
  { bots := [("b", { name := "demo", mainFile := "bot.js", status := .stopped })],
    runningBots := [], healthCheckData := [], retryData := [],
    logs := [], pendingTimers := [], nextTid := 0, nextPid := 100 }

/-- A live bot persisted as unresponsive, probe token hc_9 outstanding. -/
def sampleUnresponsive : ManagerState :=
  { bots := [("b", { name := "demo", mainFile := "bot.js", status := .unresponsive })],
    runningBots := [("b", { pid := 100, killed := false })],
    healthCheckData := [("b", { lastCheck := 0, lastResponse := none, consecutiveFailures := 3,
                                isWaitingForResponse := true, healthCheckId := some "hc_9",
                                timeoutHandle := some 12 })],
    retryData := [], logs := [], pendingTimers := [{ tid := 12, delay := 30000 }],
    nextTid := 13, nextPid := 101 }

/-! Claim theorems. -/

/-- C2: for every child-process exit event, the Retry Scheduler is engaged
for that id if and only if the exit code is not 0 and the terminating
signal is not SIGTERM; moreover on a SIGTERM exit (a deliberate stop) the
retry records and pending timers are left exactly as they were, so a
deliberate stop never schedules a retry. -/
theorem exit_engages_retry_iff (now j : Nat) (s : ManagerState) (id : String)
    (code : Option Int) (signal : Option String) :
    ((onChildExit now j s id code signal).2 = true ↔
       (code ≠ some 0 ∧ signal ≠ some "SIGTERM"))
  ∧ (signal = some "SIGTERM" →
       (onChildExit now j s id code signal).1.retryData = s.retryData
     ∧ (onChildExit now j s id code signal).1.pendingTimers = s.pendingTimers) := by
  unfold onChildExit
  dsimp only
  split
  case isTrue hcond =>
    refine ⟨by simp [hcond], fun hsig => absurd hsig hcond.2⟩
  case isFalse hcond =>
    refine ⟨by simpa using hcond, fun _ => ⟨?_, ?_⟩⟩ <;> split <;> simp

/-- Witness for C2: a SIGTERM-caused exit leaves the retry table untouched. -/
theorem exit_engages_retry_iff_witness :
    (onChildExit 5 0 sampleLive "b" none (some "SIGTERM")).1.retryData
      = sampleLive.retryData :=
  ((exit_engages_retry_iff 5 0 sampleLive "b" none (some "SIGTERM")).2 rfl).1

/-- C4: after the child process exits, the persisted status is `stopped`
when the exit code equals 0 and `error` when the exit code is nonzero. -/
theorem exit_persists_status (now j : Nat) (s : ManagerState) (id : String)
    (code : Option Int) (signal : Option String) (b : BotRec)
    (hb : alookup s.bots id = some b) :
    (code = some 0 →
       getStatus (onChildExit now j s id code signal).1 id = some .stopped)
  ∧ (∀ c : Int, code = some c → c ≠ 0 →
       getStatus (onChildExit now j s id code signal).1 id = some .error) := by
  constructor
  · intro h0
    rw [onChildExit_getStatus now j s id code signal b hb, if_pos h0]
  · intro c hc hne
    rw [onChildExit_getStatus now j s id code signal b hb, if_neg]
    intro heq
    rw [hc] at heq
    exact hne (Option.some_injective _ heq)

/-- Witness for C4: a clean exit of the sample bot persists `stopped`, a
crash with code 1 persists `error`. -/
theorem exit_persists_status_witness :
    getStatus (onChildExit 5 0 sampleLive "b" (some 0) none).1 "b" = some .stopped
  ∧ getStatus (onChildExit 5 0 sampleLive "b" (some 1) none).1 "b" = some .error :=
  ⟨(exit_persists_status 5 0 sampleLive "b" (some 0) none sampleBot rfl).1 rfl,
   (exit_persists_status 5 0 sampleLive "b" (some 1) none sampleBot rfl).2 1 rfl (by decide)⟩

/-- scheduleSmartRetry at or above the attempt cap: discard the record,
arm nothing. -/
theorem scheduleSmartRetry_at_cap (now j : Nat) (s : ManagerState) (id : String)
    (hge : (getRetryInfo now s id).attempts ≥ MAX_RETRY_ATTEMPTS) :
    (scheduleSmartRetry now j s id).retryData = aerase s.retryData id
  ∧ (scheduleSmartRetry now j s id).pendingTimers = s.pendingTimers := by
  unfold scheduleSmartRetry
  dsimp only
  rw [if_pos hge]
  exact ⟨by simp, by simp⟩

/-- scheduleSmartRetry below the cap: the stored record gets attempts + 1
and points at a fresh timer armed with delay BASE * 2 ^ attempts + jitter. -/
theorem scheduleSmartRetry_below_cap (now j : Nat) (s : ManagerState) (id : String)
    (hlt : (getRetryInfo now s id).attempts < MAX_RETRY_ATTEMPTS) :
    (scheduleSmartRetry now j s id).retryData
      = aset s.retryData id
          { attempts := (getRetryInfo now s id).attempts + 1,
            lastAttempt := now,
            nextRetryAt := some (now + (BASE_RETRY_DELAY * 2 ^ (getRetryInfo now s id).attempts + j)),
            retryTimeoutHandle := some s.nextTid }
  ∧ (scheduleSmartRetry now j s id).pendingTimers
      = (clearTimeout s (getRetryInfo now s id).retryTimeoutHandle).pendingTimers
          ++ [⟨s.nextTid, BASE_RETRY_DELAY * 2 ^ (getRetryInfo now s id).attempts + j⟩]
  ∧ (scheduleSmartRetry now j s id).nextTid = s.nextTid + 1 := by
  unfold scheduleSmartRetry
  dsimp only
  rw [if_neg (by omega)]
  refine ⟨?_, ?_, ?_⟩ <;> simp [armTimer]

/-- C3: for crashes handled by the Retry Scheduler, a stored attempts
counter at the cap (MAX_RETRY_ATTEMPTS = 5) discards the record and arms
no timer; below the cap the armed delay is BASE_RETRY_DELAY * 2 ^ attempts
plus the jitter drawn in [0, JITTER_MAX) and attempts is incremented; and
starting from no record, two consecutive crashes leave attempts = 2, the
first timer armed with 2000 * 2 ^ 0 + jitter and the second with
2000 * 2 ^ 1 + jitter, a strictly larger jitter-free delay. -/
theorem retry_backoff_spec (now now2 j j2 : Nat) (s : ManagerState) (id : String) :
    ((getRetryInfo now s id).attempts ≥ MAX_RETRY_ATTEMPTS →
        (scheduleSmartRetry now j s id).retryData = aerase s.retryData id
      ∧ (scheduleSmartRetry now j s id).pendingTimers = s.pendingTimers)
  ∧ ((getRetryInfo now s id).attempts < MAX_RETRY_ATTEMPTS →
        alookup (scheduleSmartRetry now j s id).retryData id
          = some { attempts := (getRetryInfo now s id).attempts + 1,
                   lastAttempt := now,
                   nextRetryAt := some (now + (BASE_RETRY_DELAY * 2 ^ (getRetryInfo now s id).attempts + j)),
                   retryTimeoutHandle := some s.nextTid }
      ∧ (⟨s.nextTid, BASE_RETRY_DELAY * 2 ^ (getRetryInfo now s id).attempts + j⟩ : Timer)
          ∈ (scheduleSmartRetry now j s id).pendingTimers)
  ∧ (alookup s.retryData id = none →
        (alookup (scheduleSmartRetry now2 j2 (scheduleSmartRetry now j s id) id).retryData id).map
            (fun r => r.attempts) = some 2
      ∧ (⟨s.nextTid, BASE_RETRY_DELAY * 2 ^ 0 + j⟩ : Timer)
          ∈ (scheduleSmartRetry now j s id).pendingTimers
      ∧ (⟨(scheduleSmartRetry now j s id).nextTid, BASE_RETRY_DELAY * 2 ^ 1 + j2⟩ : Timer)
          ∈ (scheduleSmartRetry now2 j2 (scheduleSmartRetry now j s id) id).pendingTimers
      ∧ BASE_RETRY_DELAY * 2 ^ 0 < BASE_RETRY_DELAY * 2 ^ 1) := by
  refine ⟨scheduleSmartRetry_at_cap now j s id, ?_, ?_⟩
  · intro hlt
    obtain ⟨hrd, hpt, _⟩ := scheduleSmartRetry_below_cap now j s id hlt
    exact ⟨by rw [hrd, alookup_aset_self], by rw [hpt]; simp⟩
  · intro hnone
    have hri : getRetryInfo now s id
        = { attempts := 0, lastAttempt := now, nextRetryAt := none,
            retryTimeoutHandle := none } := by
      unfold getRetryInfo
      rw [hnone]
      rfl
    have hlt1 : (getRetryInfo now s id).attempts < MAX_RETRY_ATTEMPTS := by
      rw [hri]
      dsimp only
      decide
    obtain ⟨hrd1, hpt1, _⟩ := scheduleSmartRetry_below_cap now j s id hlt1
    have hri2 : getRetryInfo now2 (scheduleSmartRetry now j s id) id
        = { attempts := (getRetryInfo now s id).attempts + 1,
            lastAttempt := now,
            nextRetryAt := some (now + (BASE_RETRY_DELAY * 2 ^ (getRetryInfo now s id).attempts + j)),
            retryTimeoutHandle := some s.nextTid } := by
      unfold getRetryInfo
      rw [hrd1, alookup_aset_self]
      rfl
    have hlt2 : (getRetryInfo now2 (scheduleSmartRetry now j s id) id).attempts
        < MAX_RETRY_ATTEMPTS := by
      rw [hri2, hri]
      dsimp only
      decide
    obtain ⟨hrd2, hpt2, _⟩ := scheduleSmartRetry_below_cap now2 j2 (scheduleSmartRetry now j s id) id hlt2
    refine ⟨?_, ?_, ?_, ?_⟩
    · rw [hrd2, alookup_aset_self, hri2, hri]
      rfl
    · rw [hpt1, hri]
      simp
    · rw [hpt2, hri2, hri]
      simp
    · decide

/-- Witness for C3: two consecutive crashes of the sample bot starting
with no retry record leave attempts = 2 and double the jitter-free delay. -/
theorem retry_backoff_spec_witness :
    (alookup (scheduleSmartRetry 10 200 (scheduleSmartRetry 0 100 sampleNotLive "b") "b").retryData
        "b").map (fun r => r.attempts) = some 2
  ∧ BASE_RETRY_DELAY * 2 ^ 0 < BASE_RETRY_DELAY * 2 ^ 1 :=
  ⟨((retry_backoff_spec 0 10 100 200 sampleNotLive "b").2.2 rfl).1,
   ((retry_backoff_spec 0 10 100 200 sampleNotLive "b").2.2 rfl).2.2.2⟩

/-- C7: while a health probe is outstanding, a response whose token
differs from the outstanding token is discarded without any effect at all:
the state after handleHealthCheckSuccess is exactly the state before, so
awaitingResponse is not cleared, consecutiveFailures is not reset, the
timeout timer is not cancelled, and no persisted status changes. -/
theorem stale_token_ignored (now : Nat) (s : ManagerState) (id tok : String)
    (h : HealthCheckInfo)
    (hh : alookup s.healthCheckData id = some h)
    (_hw : h.isWaitingForResponse = true)
    (hne : h.healthCheckId ≠ some tok) :
    handleHealthCheckSuccess now s id tok = s := by
  unfold handleHealthCheckSuccess
  simp only [hh]
  rw [if_neg hne]

/-- Witness for C7: a response with token hc_2 against outstanding token
hc_1 leaves the sample state untouched. -/
theorem stale_token_ignored_witness :
    handleHealthCheckSuccess 9 sampleLive "b" "hc_2" = sampleLive :=
  stale_token_ignored 9 sampleLive "b" "hc_2"
    { lastCheck := 0, lastResponse := none, consecutiveFailures := 2,
      isWaitingForResponse := true, healthCheckId := some "hc_1", timeoutHandle := some 7 }
    rfl rfl (by decide)

/-- C8: a failure that brings consecutiveFailures up to
MAX_CONSECUTIVE_FAILURES (3) persists status `unresponsive`; afterwards,
any accepted (token-matching) probe response resets consecutiveFailures to
0 and moves the persisted status from `unresponsive` back to `running`. -/
theorem failure_threshold_and_recovery (s : ManagerState) (id reason : String)
    (h : HealthCheckInfo) (b : BotRec)
    (hh : alookup s.healthCheckData id = some h)
    (hf : h.consecutiveFailures + 1 = MAX_CONSECUTIVE_FAILURES)
    (hb : alookup s.bots id = some b) :
    (getStatus (handleHealthCheckFailure s id reason) id = some .unresponsive
   ∧ (alookup (handleHealthCheckFailure s id reason).healthCheckData id).map
        (fun x => x.consecutiveFailures) = some MAX_CONSECUTIVE_FAILURES)
  ∧ (∀ (now : Nat) (s2 : ManagerState) (h2 : HealthCheckInfo) (tok : String) (b2 : BotRec),
      alookup s2.healthCheckData id = some h2 →
      h2.healthCheckId = some tok →
      alookup s2.bots id = some b2 →
      b2.status = .unresponsive →
      (alookup (handleHealthCheckSuccess now s2 id tok).healthCheckData id).map
          (fun x => x.consecutiveFailures) = some 0
    ∧ getStatus (handleHealthCheckSuccess now s2 id tok) id = some .running) := by
  constructor
  · unfold handleHealthCheckFailure
    simp only [hh]
    dsimp only
    rw [if_pos (by omega)]
    constructor
    · rw [getStatus_addLog]
      apply getStatus_updateBotStatus_self
      simpa using hb
    · simp [hf]
  · intro now s2 h2 tok b2 hh2 htok hb2 hstat
    unfold handleHealthCheckSuccess
    simp only [hh2]
    rw [if_pos htok]
    have hin : getStatus
        { (clearTimeout s2 h2.timeoutHandle) with
          healthCheckData := aset (clearTimeout s2 h2.timeoutHandle).healthCheckData id
            { h2 with timeoutHandle := none, isWaitingForResponse := false,
                      lastResponse := some now, consecutiveFailures := 0 } } id
        = some BotStatus.unresponsive := by
      unfold getStatus
      have : alookup
          ({ (clearTimeout s2 h2.timeoutHandle) with
             healthCheckData := aset (clearTimeout s2 h2.timeoutHandle).healthCheckData id
               { h2 with timeoutHandle := none, isWaitingForResponse := false,
                         lastResponse := some now, consecutiveFailures := 0 } }).bots id
          = some b2 := by
        simpa using hb2
      rw [this]
      simp [hstat]
    rw [if_pos hin]
    constructor
    · simp
    · rw [getStatus_addLog, getStatus_addLog]
      apply getStatus_updateBotStatus_self
      simpa using hb2

/-- Witness for C8: the sample bot at two failures becomes unresponsive on
the third, and an accepted response on the unresponsive sample restores
running with a zeroed failure counter. -/
theorem failure_threshold_and_recovery_witness :
    getStatus (handleHealthCheckFailure sampleLive "b" "timeout") "b" = some .unresponsive
  ∧ getStatus (handleHealthCheckSuccess 42 sampleUnresponsive "b" "hc_9") "b" = some .running :=
  ⟨(failure_threshold_and_recovery sampleLive "b" "timeout"
      { lastCheck := 0, lastResponse := none, consecutiveFailures := 2,
        isWaitingForResponse := true, healthCheckId := some "hc_1", timeoutHandle := some 7 }
      sampleBot rfl rfl rfl).1.1,
   ((failure_threshold_and_recovery sampleLive "b" "timeout"
      { lastCheck := 0, lastResponse := none, consecutiveFailures := 2,
        isWaitingForResponse := true, healthCheckId := some "hc_1", timeoutHandle := some 7 }
      sampleBot rfl rfl rfl).2 42 sampleUnresponsive
      { lastCheck := 0, lastResponse := none, consecutiveFailures := 3,
        isWaitingForResponse := true, healthCheckId := some "hc_9", timeoutHandle := some 12 }
      "hc_9"
      { name := "demo", mainFile := "bot.js", status := .unresponsive }
      rfl rfl rfl rfl).2⟩

/-- C5 counterexample: stopping the sample bot "b", whose handle is not in
the live table, does append a log entry ("Bot is not running", warn), so
the claim that no log entry is written is false at this input. -/
theorem stop_not_live_log_counterexample :
    (stopBot sampleNotLive "b" .sigtermThrows).1.logs ≠ sampleNotLive.logs := by
  decide

/-- C5 amended: for every id whose handle is not in the live table,
stop(id) resolves false, writes no persisted status, sends no signal, and
leaves the live table, health records, retry records and timers untouched;
it does, however, append one warning log entry ("Bot is not running"). -/
theorem stop_not_live_noop (s : ManagerState) (id : String) (sc : StopScenario)
    (hl : alookup s.runningBots id = none) :
    (stopBot s id sc).2.result = false
  ∧ (stopBot s id sc).2.sigtermSent = false
  ∧ (stopBot s id sc).2.sigkillCount = 0
  ∧ (stopBot s id sc).1.bots = s.bots
  ∧ (stopBot s id sc).1.runningBots = s.runningBots
  ∧ (stopBot s id sc).1.healthCheckData = s.healthCheckData
  ∧ (stopBot s id sc).1.retryData = s.retryData
  ∧ (stopBot s id sc).1.pendingTimers = s.pendingTimers
  ∧ (stopBot s id sc).1.logs = s.logs ++ [(id, .warn, "Bot is not running")] := by
  unfold stopBot
  simp only [hl]
  simp [addLog]

/-- Witness for the amended C5 on the sample non-live state. -/
theorem stop_not_live_noop_witness :
    (stopBot sampleNotLive "b" .sigtermThrows).2.result = false
  ∧ (stopBot sampleNotLive "b" .sigtermThrows).1.bots = sampleNotLive.bots :=
  ⟨(stop_not_live_noop sampleNotLive "b" .sigtermThrows rfl).1,
   (stop_not_live_noop sampleNotLive "b" .sigtermThrows rfl).2.2.2.1⟩

/-- C6: for an id already tracked as live (with its persisted record
present, as every tracked id has), a second start returns false and leaves
the persisted records, the live table, the health and retry records and
the timers unchanged, so exactly one live handle remains for that id. The
only effect is the duplicate-start warning appended to the external Log
Sink. -/
theorem start_already_running (s : ManagerState) (id : String) (sc : StartScenario)
    (b : BotRec) (h : ProcHandle)
    (hb : alookup s.bots id = some b)
    (hl : alookup s.runningBots id = some h)
    (hc : countKey s.runningBots id = 1) :
    (startBot s id sc).2 = false
  ∧ (startBot s id sc).1.bots = s.bots
  ∧ (startBot s id sc).1.runningBots = s.runningBots
  ∧ (startBot s id sc).1.healthCheckData = s.healthCheckData
  ∧ (startBot s id sc).1.retryData = s.retryData
  ∧ (startBot s id sc).1.pendingTimers = s.pendingTimers
  ∧ countKey (startBot s id sc).1.runningBots id = 1 := by
  unfold startBot
  simp only [hb, hl, Option.isSome_some, if_true]
  simp [hc]

/-- Witness for C6: a second start of the live sample bot. -/
theorem start_already_running_witness :
    (startBot sampleLive "b" { mainFileExists := true, venvExists := false }).2 = false
  ∧ countKey (startBot sampleLive "b"
      { mainFileExists := true, venvExists := false }).1.runningBots "b" = 1 :=
  ⟨(start_already_running sampleLive "b" { mainFileExists := true, venvExists := false }
      sampleBot { pid := 100, killed := false } rfl rfl rfl).1,
   (start_already_running sampleLive "b" { mainFileExists := true, venvExists := false }
      sampleBot { pid := 100, killed := false } rfl rfl rfl).2.2.2.2.2.2⟩

/-- stopBot never touches the retry records, in any scenario. -/
theorem stopBot_retryData (s : ManagerState) (id : String) (sc : StopScenario) :
    (stopBot s id sc).1.retryData = s.retryData := by
  unfold stopBot
  split
  · simp
  · dsimp only
    split
    · simp
    · simp
    · split <;> simp
    · simp

/-- A timer armed before a stopBot call and fresh with respect to nextTid
is still pending afterwards: stopBot only ever clears the force-kill timer
it armed itself. -/
theorem stopBot_timer_preserved (s : ManagerState) (id : String) (sc : StopScenario)
    (tm : Timer) (htm : tm ∈ s.pendingTimers) (hfresh : tm.tid < s.nextTid) :
    tm ∈ (stopBot s id sc).1.pendingTimers := by
  unfold stopBot
  split
  · simpa using htm
  · dsimp only
    split
    · simpa using htm
    · simpa [armTimer] using Or.inl htm
    · dsimp only
      split <;>
        · simp only [clearTimeout, addLog_pendingTimers, addLog_nextTid,
            updateBotStatus_pendingTimers, updateBotStatus_nextTid, armTimer]
          refine List.mem_filter_of_mem (List.mem_append_left _ htm) ?_
          simpa [bne_iff_ne] using Nat.ne_of_lt hfresh
    · simp only [clearTimeout, addLog_pendingTimers, addLog_nextTid,
        updateBotStatus_pendingTimers, updateBotStatus_nextTid, armTimer, if_neg]
      refine List.mem_filter_of_mem (List.mem_append_left _ htm) ?_
      simpa [bne_iff_ne] using Nat.ne_of_lt hfresh

/-- deleteBot never touches the retry records, in any scenario. -/
theorem deleteBot_retryData (s : ManagerState) (id : String) (sc : StopScenario) :
    (deleteBot s id sc).1.retryData = s.retryData := by
  unfold deleteBot
  dsimp only
  by_cases hl : (alookup s.runningBots id).isSome
  · rw [if_pos hl]
    split <;> simp [stopBot_retryData]
  · rw [if_neg hl]
    split <;> simp

/-- A fresh pending timer survives deleteBot. -/
theorem deleteBot_timer_preserved (s : ManagerState) (id : String) (sc : StopScenario)
    (tm : Timer) (htm : tm ∈ s.pendingTimers) (hfresh : tm.tid < s.nextTid) :
    tm ∈ (deleteBot s id sc).1.pendingTimers := by
  unfold deleteBot
  dsimp only
  by_cases hl : (alookup s.runningBots id).isSome
  · rw [if_pos hl]
    split <;> simpa using stopBot_timer_preserved s id sc tm htm hfresh
  · rw [if_neg hl]
    split <;> simpa using htm

/-- C1 as the code actually behaves (code bug): a RetryRecord with a
pending retry timer survives both stop(id) and delete(id) completely
untouched, whatever the child does during the stop: the record is still
stored and its timer is still armed afterwards, so the timer fires later.
The private cancelRetries method that would discard them has no caller. -/
theorem stop_delete_leave_retry_pending (s : ManagerState) (id : String) (sc : StopScenario)
    (r : RetryInfo) (tm : Timer)
    (hr : alookup s.retryData id = some r)
    (_ht : r.retryTimeoutHandle = some tm.tid)
    (htm : tm ∈ s.pendingTimers)
    (hfresh : tm.tid < s.nextTid) :
    (alookup (stopBot s id sc).1.retryData id = some r
   ∧ tm ∈ (stopBot s id sc).1.pendingTimers)
  ∧ (alookup (deleteBot s id sc).1.retryData id = some r
   ∧ tm ∈ (deleteBot s id sc).1.pendingTimers) :=
  ⟨⟨by rw [stopBot_retryData]; exact hr,
    stopBot_timer_preserved s id sc tm htm hfresh⟩,
   ⟨by rw [deleteBot_retryData]; exact hr,
    deleteBot_timer_preserved s id sc tm htm hfresh⟩⟩

/-- Witness for C1: on the sample crashed bot with retry timer 3 pending,
deleting the bot leaves the RetryRecord stored and timer 3 armed. -/
theorem stop_delete_leave_retry_pending_witness :
    alookup (deleteBot sampleRetrying "b" .sigtermThrows).1.retryData "b"
      = some { attempts := 1, lastAttempt := 0, nextRetryAt := some 2500,
               retryTimeoutHandle := some 3 }
  ∧ ({ tid := 3, delay := 2500 } : Timer)
      ∈ (deleteBot sampleRetrying "b" .sigtermThrows).1.pendingTimers :=
  (stop_delete_leave_retry_pending sampleRetrying "b" .sigtermThrows
    { attempts := 1, lastAttempt := 0, nextRetryAt := some 2500, retryTimeoutHandle := some 3 }
    { tid := 3, delay := 2500 }
    rfl rfl (by decide) (by decide)).2

/-- C9 as the code actually behaves (code bug): stopping a live process
that never exits within the 5s grace period still resolves as successful,
but zero SIGKILLs are sent, in this and in every other scenario: after the
successful SIGTERM the Node killed flag on the handle is already true, so
the guard on childProcess.killed in the force-kill timer always skips
kill(SIGKILL). The force timer is still correctly cancelled when the
process exits before the deadline. -/
theorem stop_force_kill_skipped (s : ManagerState) (id : String) (h : ProcHandle)
    (hl : alookup s.runningBots id = some h) :
    ((stopBot s id .noExitWithinGrace).2.result = true
   ∧ (stopBot s id .noExitWithinGrace).2.sigtermSent = true
   ∧ (stopBot s id .noExitWithinGrace).2.sigkillCount = 0)
  ∧ (∀ sc : StopScenario, (stopBot s id sc).2.sigkillCount = 0)
  ∧ (∀ code signal,
      (stopBot s id (.exitsWithinGrace code signal)).2.forceTimerCancelled = true
    ∧ (stopBot s id (.exitsWithinGrace code signal)).2.result = true) := by
  refine ⟨?_, ?_, ?_⟩
  · unfold stopBot
    simp only [hl]
    simp
  · intro sc
    unfold stopBot
    simp only [hl]
    cases sc <;> rfl
  · intro code signal
    unfold stopBot
    simp only [hl]
    simp

/-- Witness for C9: a live sample bot that ignores SIGTERM for 5s is
resolved as stopped with zero SIGKILLs sent. -/
theorem stop_force_kill_skipped_witness :
    (stopBot sampleLive "b" .noExitWithinGrace).2.result = true
  ∧ (stopBot sampleLive "b" .noExitWithinGrace).2.sigkillCount = 0 :=
  ⟨(stop_force_kill_skipped sampleLive "b" { pid := 100, killed := false } rfl).1.1,
   (stop_force_kill_skipped sampleLive "b" { pid := 100, killed := false } rfl).1.2.2⟩

/-- C10: stopping a live process writes `stopped` before signaling; when
the child then exits from the graceful signal (exit code null, signal
SIGTERM), the exit listener installed at start persists `error` (the null
code takes the nonzero branch), so the final persisted status of a
completed graceful stop is `error`, overwriting the `stopped` just
written. -/
theorem graceful_stop_final_status (now j : Nat) (s : ManagerState) (id : String)
    (b : BotRec) (h : ProcHandle)
    (hb : alookup s.bots id = some b)
    (hl : alookup s.runningBots id = some h) :
    getStatus (stopBot s id (.exitsWithinGrace none (some "SIGTERM"))).1 id = some .stopped
  ∧ getStatus (onChildExit now j (stopBot s id (.exitsWithinGrace none (some "SIGTERM"))).1
        id none (some "SIGTERM")).1 id = some .error := by
  have hb2 : alookup (stopBot s id (.exitsWithinGrace none (some "SIGTERM"))).1.bots id
      = some { b with status := BotStatus.stopped } := by
    unfold stopBot
    simp only [hl]
    simp [updateBotStatus, hb]
  constructor
  · unfold getStatus
    rw [hb2]
    rfl
  · rw [onChildExit_getStatus now j _ id none (some "SIGTERM")
      { b with status := BotStatus.stopped } hb2]
    simp

/-- Witness for C10 on the live sample bot. -/
theorem graceful_stop_final_status_witness :
    getStatus (onChildExit 99 0 (stopBot sampleLive "b"
        (.exitsWithinGrace none (some "SIGTERM"))).1 "b" none (some "SIGTERM")).1 "b"
      = some .error :=
  (graceful_stop_final_status 99 0 sampleLive "b" sampleBot
    { pid := 100, killed := false } rfl rfl).2

end CloudyHost
